import Mathlib

/-
Shallow embedding of `src/main.py` (Distributed-computing Research
Framework #1).

Modelling conventions:
* Python `float` wall-clock quantities are modelled as `Rat`.  Each call of
  `execute_research_task` measures an elapsed wall-clock duration
  (`time.time() - start_time`, line 62) and reads the current unix time
  truncated to seconds (`int(time.time())`, line 55); both are inputs of the
  environment, collected in `ExecEnv`.
* Python dictionaries used as work items (`task_data`, only the key
  `"task_id"` is ever read) are association lists `List (String × String)`.
* The cooperative asyncio scheduler runs every synchronous section of
  `execute_research_task` (lines 54-79, between awaits) atomically, and
  `asyncio.gather` (line 91) returns results at the input positions.
  `runBatchProcessing` therefore threads the framework state through the
  executor once per task, in input order, and pairs the i-th result with the
  i-th work item.  One `ExecEnv` is consumed per task; a depleted environment
  list falls back to `⟨0, 0⟩` for totality.
* The `asyncio.Semaphore(max_workers)` gate of lines 85-91 is modelled
  separately as a small-step transition system (`SemStep`) over the phases of
  the batch's coroutines, for the concurrency claim.
* The entry point `main` (lines 112-137) is modelled with an explicit Python
  name-resolution environment for its f-strings, because it references the
  undefined name `index` (lines 127 and 137).
-/

namespace DistComp

/-- Python dataclass `ResearchConfig`, lines 13-19.  `max_workers` is passed to
`asyncio.Semaphore` and must be a non-negative count, hence `Nat`. -/
structure ResearchConfig where
  framework_id : Int
  category : String
  version : String := "1.0.0"
  max_workers : Nat := 4
  timeout : Rat := 30
deriving DecidableEq, Repr

/-- The `self.metrics` dictionary, lines 29-33. -/
structure Metrics where
  tasks_completed : Nat
  total_runtime : Rat
  success_rate : Rat
deriving DecidableEq, Repr

/-- State of a `DistributedcomputingFramework` instance: `self.config`,
`self.is_running`, `self.metrics` (lines 22-33; `self.logger` carries no
state relevant to the embedding). -/
structure Framework where
  config : ResearchConfig
  is_running : Bool
  metrics : Metrics
deriving DecidableEq, Repr

/-- Constructor `DistributedcomputingFramework.__init__`, lines 22-33: the optional
config argument defaults to `ResearchConfig(framework_id=1,
category="distributed-computing")`. -/
def mkFramework (config : Option ResearchConfig) : Framework :=
  { config := config.getD { framework_id := 1, category := "distributed-computing" }
    is_running := false
    metrics := { tasks_completed := 0, total_runtime := 0, success_rate := 0 } }

/-- The dictionary returned by `initialize_research`, lines 39-50. -/
structure InitDescriptor where
  framework : String
  version : String
  research_id : Int
  status : String
  capabilities : List String
deriving DecidableEq, Repr

/-- Method `DistributedcomputingFramework.initialize_research`, lines 35-50.  The
log line (line 37) has no effect on state or return value. -/
def initializeResearch (fw : Framework) : InitDescriptor :=
  { framework := fw.config.category
    version := fw.config.version
    research_id := fw.config.framework_id
    status := "initialized"
    capabilities := [
      "distributed_processing",
      "real_time_analysis",
      "performance_optimization",
      "scalable_architecture"] }

/-- Environment of one `execute_research_task` call: `now` is
`int(time.time())` at line 55, `elapsed` is `time.time() - start_time`
at line 62. -/
structure ExecEnv where
  now : Int
  elapsed : Rat
deriving DecidableEq, Repr

/-- Work items are Python dicts; only `task_data.get("task_id", ...)` is ever
read (line 55). -/
def dictGet (d : List (String × String)) (k : String) : Option String :=
  match d with
  | [] => none
  | (k', v) :: rest => if k' = k then some v else dictGet rest k

/-- The `performance_metrics` sub-dictionary of a result record,
lines 70-75. -/
structure PerfMetrics where
  throughput : Rat
  memory_efficiency : String
  accuracy : Rat
  scalability_factor : Nat
deriving DecidableEq, Repr

/-- The result record returned by `execute_research_task`, lines 66-77. -/
structure TaskResult where
  task_id : String
  computation_result : String
  execution_time : Rat
  performance_metrics : PerfMetrics
  framework_metrics : Metrics
deriving DecidableEq, Repr

/-- Method `DistributedcomputingFramework.execute_research_task`, lines 52-79.
Returns the result record and the updated framework state (the mutation of
`self.metrics`, lines 63-64).  `framework_metrics` is `self.metrics.copy()`
taken after the update (line 76). -/
def executeResearchTask (fw : Framework) (task_data : List (String × String))
    (env : ExecEnv) : TaskResult × Framework :=
  let task_id := (dictGet task_data "task_id").getD
    ("task_" ++ toString fw.config.framework_id ++ "_" ++ toString env.now)
  let execution_time := env.elapsed
  let m : Metrics :=
    { tasks_completed := fw.metrics.tasks_completed + 1
      total_runtime := fw.metrics.total_runtime + execution_time
      success_rate := fw.metrics.success_rate }
  ({ task_id := task_id
     computation_result := "Advanced " ++ fw.config.category ++ " computation completed"
     execution_time := execution_time
     performance_metrics :=
       { throughput := if execution_time > 0 then 1 / execution_time else 0
         memory_efficiency := "optimal"
         accuracy := 99 / 100
         scalability_factor := fw.config.max_workers }
     framework_metrics := m },
   { fw with metrics := m })

/-- Method `DistributedcomputingFramework.run_batch_processing`, lines 81-94:
one executor call per work item, results collected at the input positions
(`asyncio.gather`, line 91).  The metric updates of the coroutines are
serialised by the cooperative scheduler; the state is threaded through the
executor in input order.  One `ExecEnv` is consumed per task. -/
def runBatchProcessing (fw : Framework) (tasks : List (List (String × String)))
    (envs : List ExecEnv) : List TaskResult × Framework :=
  match tasks with
  | [] => ([], fw)
  | t :: ts =>
    let step := executeResearchTask fw t (envs.headD ⟨0, 0⟩)
    let rest := runBatchProcessing step.2 ts envs.tail
    (step.1 :: rest.1, rest.2)

/-- The `performance` sub-dictionary of the report, lines 105-109. -/
structure Perf where
  average_task_time : Rat
  tasks_per_second : Rat
  efficiency_rating : String
deriving DecidableEq, Repr

/-- The dictionary returned by `get_performance_report`, lines 101-110. -/
structure Report where
  framework_id : Int
  category : String
  metrics : Metrics
  performance : Perf
deriving DecidableEq, Repr

/-- Method `DistributedcomputingFramework.get_performance_report`, lines 96-110. -/
def getPerformanceReport (fw : Framework) : Report :=
  let avg : Rat :=
    if fw.metrics.tasks_completed > 0
    then fw.metrics.total_runtime / (fw.metrics.tasks_completed : Rat)
    else 0
  { framework_id := fw.config.framework_id
    category := fw.config.category
    metrics := fw.metrics
    performance :=
      { average_task_time := avg
        tasks_per_second := if avg > 0 then 1 / avg else 0
        efficiency_rating := "high" } }

/-- One public operation of `DistributedcomputingFramework`, with the caller
supplied arguments and the measurement environment of each executor call. -/
inductive Op where
  | initializeResearchOp
  | executeResearchTaskOp (task_data : List (String × String)) (env : ExecEnv)
  | runBatchProcessingOp (tasks : List (List (String × String))) (envs : List ExecEnv)
  | getPerformanceReportOp
deriving DecidableEq, Repr

/-- The value returned by one operation. -/
inductive OpOutput where
  | initOut (d : InitDescriptor)
  | execOut (r : TaskResult)
  | batchOut (rs : List TaskResult)
  | reportOut (r : Report)
deriving DecidableEq, Repr

/-- State transition of one operation.  `initialize_research` and
`get_performance_report` never assign to `self`, so they leave the state
unchanged. -/
def applyOp (fw : Framework) : Op → Framework
  | .initializeResearchOp => fw
  | .executeResearchTaskOp td env => (executeResearchTask fw td env).2
  | .runBatchProcessingOp tds envs => (runBatchProcessing fw tds envs).2
  | .getPerformanceReportOp => fw

/-- Return value of one operation. -/
def opResult (fw : Framework) : Op → OpOutput
  | .initializeResearchOp => .initOut (initializeResearch fw)
  | .executeResearchTaskOp td env => .execOut (executeResearchTask fw td env).1
  | .runBatchProcessingOp tds envs => .batchOut (runBatchProcessing fw tds envs).1
  | .getPerformanceReportOp => .reportOut (getPerformanceReport fw)

/-- State after a sequence of operations. -/
def applyOps (fw : Framework) (ops : List Op) : Framework :=
  ops.foldl applyOp fw

/-! ### Semaphore model of the batch runner's concurrency gate

`run_batch_processing` (lines 85-91) creates `asyncio.Semaphore(max_workers)`
and wraps every executor call in `async with semaphore`.  Each of the batch's
coroutines is in one of three phases: waiting to acquire the gate, active
(past the acquire, executor body not yet finished), or done (gate released).
A semaphore state is the list of coroutine phases together with the
semaphore's internal counter; acquire requires a positive counter and
decrements it, release increments it. -/

/-- Phase of one `process_task` coroutine of the batch (lines 87-89). -/
inductive TaskPhase where
  | waiting
  | active
  | done
deriving DecidableEq, Repr

/-- Number of coroutines currently past the semaphore acquire and not yet
released. -/
def activeCount (ps : List TaskPhase) : Nat :=
  ps.countP (fun p => p = TaskPhase.active)

/-- One scheduler step of the gated batch: a waiting coroutine acquires the
semaphore when its counter is positive, or an active coroutine finishes and
releases it.  The pair is (coroutine phases, semaphore counter). -/
inductive SemStep : List TaskPhase × Nat → List TaskPhase × Nat → Prop where
  | acquire (ps : List TaskPhase) (c i : Nat) :
      ps.get? i = some TaskPhase.waiting →
      SemStep (ps, c + 1) (ps.set i TaskPhase.active, c)
  | release (ps : List TaskPhase) (c i : Nat) :
      ps.get? i = some TaskPhase.active →
      SemStep (ps, c) (ps.set i TaskPhase.done, c + 1)

/-- States reachable by the batch of `numTasks` coroutines gated by
`asyncio.Semaphore(workers)`: initially every coroutine waits and the counter
is `workers`. -/
def SemReachable (workers numTasks : Nat) (s : List TaskPhase × Nat) : Prop :=
  Relation.ReflTransGen SemStep (List.replicate numTasks TaskPhase.waiting, workers) s

/-! ### Entry point `main` (lines 112-137)

`main`'s observable behaviour hinges on Python name resolution inside its
f-strings, because the name `index` is referenced (lines 127 and 137) but
never bound.  We embed the f-strings of `main` with an explicit environment
of the names in scope at each point. -/

/-- A Python value as far as `main`'s f-strings need: integers (the loop
counter `i`), strings, and opaque objects rendered by tag. -/
inductive PyVal where
  | int (n : Int)
  | str (s : String)
  | obj (tag : String)
deriving DecidableEq, Repr

/-- A Python runtime error relevant to this program. -/
inductive PyError where
  | nameError (name : String)
  | typeError (name : String)
  | zeroDivisionError
deriving DecidableEq, Repr

/-- Name lookup in a scope (innermost binding first). -/
def pyLookup (env : List (String × PyVal)) (n : String) : Option PyVal :=
  match env with
  | [] => none
  | (k, v) :: rest => if k = n then some v else pyLookup rest n

/-- Rendering of a value inside an f-string (object rendering is coarse:
only which prints succeed matters to the claims, not the full repr text). -/
def PyVal.render : PyVal → String
  | .int n => toString n
  | .str s => s
  | .obj tag => tag

/-- One piece of an f-string: a literal, an interpolated name `n`, or the
interpolated expression `n + 1` (the only expression forms `main` uses). -/
inductive Piece where
  | lit (s : String)
  | var (n : String)
  | varSucc (n : String)
deriving DecidableEq, Repr

/-- Evaluate one f-string piece: an unbound name raises `NameError`
(`n + 1` on a non-integer would raise `TypeError`). -/
def evalPiece (env : List (String × PyVal)) : Piece → Except PyError String
  | .lit s => .ok s
  | .var n =>
    match pyLookup env n with
    | some v => .ok v.render
    | none => .error (.nameError n)
  | .varSucc n =>
    match pyLookup env n with
    | some (.int v) => .ok (toString (v + 1))
    | some _ => .error (.typeError n)
    | none => .error (.nameError n)

/-- Evaluate a whole f-string. -/
def evalFString (env : List (String × PyVal)) (ps : List Piece) :
    Except PyError String := do
  let parts ← ps.mapM (evalPiece env)
  return String.join parts

/-- Names bound in `main`'s local scope after lines 119-122 (`framework`,
`init_result`); the f-strings of `main` reference no module global. -/
def mainLocals0 : List (String × PyVal) :=
  [("framework", PyVal.obj "DistributedcomputingFramework"),
   ("init_result", PyVal.obj "dict")]

/-- f-string of line 123: `f"Framework initialized: {init_result}"`. -/
def initPrintPieces : List Piece :=
  [Piece.lit "Framework initialized: ", Piece.var "init_result"]

/-- f-string of line 127 (task id): `f"research_{index + 1}_{i}"`. -/
def taskIdPieces : List Piece :=
  [Piece.lit "research_", Piece.varSucc "index", Piece.lit "_", Piece.var "i"]

/-- f-string of line 127 (data field): `f"sample_data_{i}"`. -/
def dataPieces : List Piece :=
  [Piece.lit "sample_data_", Piece.var "i"]

/-- f-string of line 135: `f"Performance Report: {report}"`. -/
def reportPrintPieces : List Piece :=
  [Piece.lit "Performance Report: ", Piece.var "report"]

/-- f-string of line 137:
`f"Research framework {index + 1} execution completed successfully"`. -/
def finalPrintPieces : List Piece :=
  [Piece.lit "Research framework ", Piece.varSucc "index",
   Piece.lit " execution completed successfully"]

/-- One element of the `sample_tasks` comprehension (lines 126-129) for loop
value `i`: the comprehension scope binds `i` innermost over `main`'s locals. -/
def sampleTaskItem (outer : List (String × PyVal)) (i : Int) :
    Except PyError (List (String × String)) := do
  let scope := ("i", PyVal.int i) :: outer
  let tid ← evalFString scope taskIdPieces
  let dat ← evalFString scope dataPieces
  return [("task_id", tid), ("data", dat), ("complexity", "high")]

/-- The `sample_tasks` list comprehension, lines 126-129: five items for
`i in range(5)`. -/
def buildSampleTasks (outer : List (String × PyVal)) :
    Except PyError (List (List (String × String))) :=
  (List.range 5).mapM (fun i => sampleTaskItem outer (Int.ofNat i))

/-- The three print statements of `main`, as events. -/
inductive PrintEvent where
  | initLine
  | reportLine
  | finalLine
deriving DecidableEq, Repr

/-- Entry point `main`, lines 112-137: construct the framework with the default config,
initialize and print (line 123), build the sample tasks (lines 126-129), run
the batch (line 131), build and print the report (lines 134-135), final print
(line 137).  Returns the prints that happened and the final outcome; a raised
error aborts the remaining steps. -/
def runMain (envs : List ExecEnv) : List PrintEvent × Except PyError Unit :=
  let fw := mkFramework none
  let _initRes := initializeResearch fw
  match evalFString mainLocals0 initPrintPieces with
  | .error e => ([], .error e)
  | .ok _ =>
    match buildSampleTasks mainLocals0 with
    | .error e => ([PrintEvent.initLine], .error e)
    | .ok tasks =>
      let rb := runBatchProcessing fw tasks envs
      let _report := getPerformanceReport rb.2
      let locals2 := mainLocals0 ++
        [("sample_tasks", PyVal.obj "list"), ("results", PyVal.obj "list"),
         ("report", PyVal.obj "dict")]
      match evalFString locals2 reportPrintPieces with
      | .error e => ([PrintEvent.initLine], .error e)
      | .ok _ =>
        match evalFString locals2 finalPrintPieces with
        | .error e => ([PrintEvent.initLine, PrintEvent.reportLine], .error e)
        | .ok _ =>
          ([PrintEvent.initLine, PrintEvent.reportLine, PrintEvent.finalLine], .ok ())

/-! ### Guarded-division model for the division-safety claim

Python raises `ZeroDivisionError` when a divisor is zero; `pyDiv` mirrors
this.  The checked variants below re-run the program's three division sites
(lines 71, 98, 107) with the raising division, so that returning `.ok` proves
the guards make the error unreachable. -/

/-- Python division: raises `ZeroDivisionError` on a zero divisor. -/
def pyDiv (a b : Rat) : Except PyError Rat :=
  if b = 0 then .error .zeroDivisionError else .ok (a / b)

/-- The `throughput` computation of line 71 with raising division:
`1.0 / execution_time if execution_time > 0 else 0`. -/
def throughputChecked (execution_time : Rat) : Except PyError Rat :=
  if execution_time > 0 then pyDiv 1 execution_time else .ok 0

/-- The `performance` block of `get_performance_report` (lines 98-108) with
raising division at both sites. -/
def perfChecked (m : Metrics) : Except PyError Perf := do
  let avg ← if m.tasks_completed > 0
    then pyDiv m.total_runtime (m.tasks_completed : Rat)
    else pure 0
  let tps ← if avg > 0 then pyDiv 1 avg else pure 0
  return { average_task_time := avg, tasks_per_second := tps,
           efficiency_rating := "high" }

/-! ### Helper lemmas about the batch runner -/

theorem runBatch_length (fw : Framework) (tasks : List (List (String × String)))
    (envs : List ExecEnv) :
    (runBatchProcessing fw tasks envs).1.length = tasks.length := by
  induction tasks generalizing fw envs with
  | nil => rfl
  | cons t ts ih => simp [runBatchProcessing, ih]

theorem runBatch_get (fw : Framework) (tasks : List (List (String × String)))
    (envs : List ExecEnv) (i : Nat)
    (hlen : envs.length = tasks.length) (hi : i < tasks.length) :
    ((runBatchProcessing fw tasks envs).1)[i]? =
      some ((executeResearchTask
        ((runBatchProcessing fw (tasks.take i) (envs.take i)).2)
        (tasks[i]?.getD []) (envs[i]?.getD ⟨0, 0⟩)).1) := by
  induction tasks generalizing fw envs i with
  | nil => exact absurd hi (Nat.not_lt_zero i)
  | cons t ts ih =>
    cases envs with
    | nil => simp at hlen
    | cons e es =>
      simp only [List.length_cons, Nat.succ_eq_add_one, Nat.add_right_cancel_iff] at hlen
      cases i with
      | zero => simp [runBatchProcessing]
      | succ j =>
        have hj : j < ts.length := Nat.lt_of_succ_lt_succ hi
        simpa [runBatchProcessing] using
          ih (executeResearchTask fw t e).2 es j hlen hj

theorem exec_metrics (fw : Framework) (td : List (String × String)) (env : ExecEnv) :
    (executeResearchTask fw td env).2.metrics.tasks_completed
        = fw.metrics.tasks_completed + 1 ∧
    (executeResearchTask fw td env).2.metrics.total_runtime
        = fw.metrics.total_runtime + env.elapsed ∧
    (executeResearchTask fw td env).2.metrics.success_rate
        = fw.metrics.success_rate :=
  ⟨rfl, rfl, rfl⟩

theorem runBatch_completed (fw : Framework) (tasks : List (List (String × String)))
    (envs : List ExecEnv) (hlen : envs.length = tasks.length) :
    (runBatchProcessing fw tasks envs).2.metrics.tasks_completed
      = fw.metrics.tasks_completed + tasks.length := by
  induction tasks generalizing fw envs with
  | nil => rfl
  | cons t ts ih =>
    cases envs with
    | nil => simp at hlen
    | cons e es =>
      simp only [List.length_cons, Nat.succ_eq_add_one, Nat.add_right_cancel_iff] at hlen
      have h := ih (executeResearchTask fw t e).2 es hlen
      simp only [runBatchProcessing, List.headD_cons, List.tail_cons]
      rw [h, (exec_metrics fw t e).1, List.length_cons]
      omega

theorem runBatch_runtime (fw : Framework) (tasks : List (List (String × String)))
    (envs : List ExecEnv) (hlen : envs.length = tasks.length) :
    (runBatchProcessing fw tasks envs).2.metrics.total_runtime
      = fw.metrics.total_runtime + (envs.map ExecEnv.elapsed).sum := by
  induction tasks generalizing fw envs with
  | nil =>
    have : envs = [] := List.length_eq_zero.mp (by simpa using hlen)
    simp [this, runBatchProcessing]
  | cons t ts ih =>
    cases envs with
    | nil => simp at hlen
    | cons e es =>
      simp only [List.length_cons, Nat.succ_eq_add_one, Nat.add_right_cancel_iff] at hlen
      have h := ih (executeResearchTask fw t e).2 es hlen
      simp only [runBatchProcessing, List.headD_cons, List.tail_cons]
      rw [h, (exec_metrics fw t e).2.1, List.map_cons, List.sum_cons]
      ring

/-- C1: for every list of N work items (including N = 0) and its list of
measured environments, `run_batch_processing` returns exactly N result
records, the i-th being the value of `execute_research_task` on the i-th
input work item (run from the state reached after the first i tasks), so
input order is preserved. -/
theorem claim_C1_batch_shape (fw : Framework)
    (tasks : List (List (String × String))) (envs : List ExecEnv)
    (hlen : envs.length = tasks.length) :
    (runBatchProcessing fw tasks envs).1.length = tasks.length ∧
    ∀ i : Nat, i < tasks.length →
      ((runBatchProcessing fw tasks envs).1)[i]? =
        some ((executeResearchTask
          ((runBatchProcessing fw (tasks.take i) (envs.take i)).2)
          (tasks[i]?.getD []) (envs[i]?.getD ⟨0, 0⟩)).1) :=
  ⟨runBatch_length fw tasks envs,
   fun i hi => runBatch_get fw tasks envs i hlen hi⟩

/-- C1 witness: a concrete two-task batch. -/
theorem claim_C1_batch_shape_witness :
    ([(⟨5, 1/10⟩ : ExecEnv), ⟨6, 1/5⟩].length
        = [[("task_id", "a")], [("task_id", "b")]].length) ∧
    (runBatchProcessing (mkFramework none)
        [[("task_id", "a")], [("task_id", "b")]] [⟨5, 1/10⟩, ⟨6, 1/5⟩]).1.length
      = [[("task_id", "a")], [("task_id", "b")]].length ∧
    ((runBatchProcessing (mkFramework none)
        [[("task_id", "a")], [("task_id", "b")]] [⟨5, 1/10⟩, ⟨6, 1/5⟩]).1)[1]? =
      some ((executeResearchTask
        ((runBatchProcessing (mkFramework none)
          ([[("task_id", "a")], [("task_id", "b")]].take 1)
          ([⟨5, 1/10⟩, ⟨6, 1/5⟩].take 1)).2)
        ([[("task_id", "a")], [("task_id", "b")]][1]?.getD [])
        (([(⟨5, 1/10⟩ : ExecEnv), ⟨6, 1/5⟩])[1]?.getD ⟨0, 0⟩)).1) := by
  have h := claim_C1_batch_shape (mkFramework none)
    [[("task_id", "a")], [("task_id", "b")]] [⟨5, 1/10⟩, ⟨6, 1/5⟩] rfl
  exact ⟨rfl, h.1, h.2 1 (by decide)⟩

/-- C2: after `run_batch_processing` on N work items, `tasks_completed` has
increased by exactly N and `total_runtime` by the sum of the elapsed times
measured inside the N `execute_research_task` invocations. -/
theorem claim_C2_metrics_accumulation (fw : Framework)
    (tasks : List (List (String × String))) (envs : List ExecEnv)
    (hlen : envs.length = tasks.length) :
    (runBatchProcessing fw tasks envs).2.metrics.tasks_completed
        = fw.metrics.tasks_completed + tasks.length ∧
    (runBatchProcessing fw tasks envs).2.metrics.total_runtime
        = fw.metrics.total_runtime + (envs.map ExecEnv.elapsed).sum :=
  ⟨runBatch_completed fw tasks envs hlen, runBatch_runtime fw tasks envs hlen⟩

/-- C2 witness: a concrete two-task batch starting from the freshly
constructed framework. -/
theorem claim_C2_metrics_accumulation_witness :
    ([(⟨5, 1/10⟩ : ExecEnv), ⟨6, 1/5⟩].length
        = [[("task_id", "a")], [("task_id", "b")]].length) ∧
    (runBatchProcessing (mkFramework none)
        [[("task_id", "a")], [("task_id", "b")]] [⟨5, 1/10⟩, ⟨6, 1/5⟩]).2.metrics.tasks_completed
      = (mkFramework none).metrics.tasks_completed
          + [[("task_id", "a")], [("task_id", "b")]].length ∧
    (runBatchProcessing (mkFramework none)
        [[("task_id", "a")], [("task_id", "b")]] [⟨5, 1/10⟩, ⟨6, 1/5⟩]).2.metrics.total_runtime
      = (mkFramework none).metrics.total_runtime
          + ([(⟨5, 1/10⟩ : ExecEnv), ⟨6, 1/5⟩].map ExecEnv.elapsed).sum := by
  have h := claim_C2_metrics_accumulation (mkFramework none)
    [[("task_id", "a")], [("task_id", "b")]] [⟨5, 1/10⟩, ⟨6, 1/5⟩] rfl
  exact ⟨rfl, h.1, h.2⟩

/-! ### Report generator -/

/-- A concrete framework state with completed tasks, for witnesses. -/
def fwSample : Framework :=
  { config := { framework_id := 7, category := "x" }
    is_running := false
    metrics := { tasks_completed := 2, total_runtime := 1/2, success_rate := 0 } }

/-- C3: `get_performance_report` returns `average_task_time =
total_runtime / tasks_completed` when `tasks_completed > 0` and 0 otherwise,
`tasks_per_second = 1 / average_task_time` when `average_task_time` is
nonzero and 0 otherwise, the constant efficiency label "high" and the
metrics mapping, and it mutates no state.  The hypothesis `0 ≤
total_runtime` holds in every run of the program (the accumulator starts at
0 and only measured non-negative durations are added); it reconciles the
code's `> 0` guard with the claim's "nonzero". -/
theorem claim_C3_performance_report (fw : Framework)
    (h : 0 ≤ fw.metrics.total_runtime) :
    (getPerformanceReport fw).performance.average_task_time =
      (if fw.metrics.tasks_completed > 0
       then fw.metrics.total_runtime / (fw.metrics.tasks_completed : Rat)
       else 0) ∧
    (getPerformanceReport fw).performance.tasks_per_second =
      (if (getPerformanceReport fw).performance.average_task_time ≠ 0
       then 1 / (getPerformanceReport fw).performance.average_task_time
       else 0) ∧
    (getPerformanceReport fw).performance.efficiency_rating = "high" ∧
    (getPerformanceReport fw).metrics = fw.metrics ∧
    applyOp fw Op.getPerformanceReportOp = fw := by
  have havg : (getPerformanceReport fw).performance.average_task_time
      = (if fw.metrics.tasks_completed > 0
         then fw.metrics.total_runtime / (fw.metrics.tasks_completed : Rat)
         else 0) := rfl
  have htps : (getPerformanceReport fw).performance.tasks_per_second
      = (if (getPerformanceReport fw).performance.average_task_time > 0
         then 1 / (getPerformanceReport fw).performance.average_task_time
         else 0) := rfl
  refine ⟨havg, ?_, rfl, rfl, rfl⟩
  have hnn : 0 ≤ (getPerformanceReport fw).performance.average_task_time := by
    rw [havg]
    split
    · exact div_nonneg h (Nat.cast_nonneg _)
    · exact le_refl 0
  rw [htps]
  rcases eq_or_lt_of_le hnn with hzero | hpos
  · have hz : (getPerformanceReport fw).performance.average_task_time = 0 :=
      hzero.symm
    simp [hz]
  · rw [if_pos hpos, if_pos (ne_of_gt hpos)]

/-- C3 witness: a state with two completed tasks totalling half a second. -/
theorem claim_C3_performance_report_witness :
    (0 ≤ fwSample.metrics.total_runtime) ∧
    ((getPerformanceReport fwSample).performance.average_task_time =
      (if fwSample.metrics.tasks_completed > 0
       then fwSample.metrics.total_runtime / (fwSample.metrics.tasks_completed : Rat)
       else 0) ∧
    (getPerformanceReport fwSample).performance.tasks_per_second =
      (if (getPerformanceReport fwSample).performance.average_task_time ≠ 0
       then 1 / (getPerformanceReport fwSample).performance.average_task_time
       else 0) ∧
    (getPerformanceReport fwSample).performance.efficiency_rating = "high" ∧
    (getPerformanceReport fwSample).metrics = fwSample.metrics ∧
    applyOp fwSample Op.getPerformanceReportOp = fwSample) :=
  ⟨by norm_num [fwSample], claim_C3_performance_report fwSample (by norm_num [fwSample])⟩

/-- C7: every division site of the program (`throughput = 1/execution_time`
at line 71, `average_task_time = total_runtime/tasks_completed` at line 98,
`tasks_per_second = 1/average_task_time` at line 107) is guarded by a
positivity test on its divisor and returns 0 otherwise: re-running each site
with Python's raising division always yields a value, never a
`ZeroDivisionError`. -/
theorem claim_C7_division_guards :
    (∀ execution_time : Rat,
      throughputChecked execution_time
        = Except.ok (if execution_time > 0 then 1 / execution_time else 0)) ∧
    (∀ (fw : Framework) (td : List (String × String)) (env : ExecEnv),
      (executeResearchTask fw td env).1.performance_metrics.throughput
        = if env.elapsed > 0 then 1 / env.elapsed else 0) ∧
    (∀ fw : Framework,
      perfChecked fw.metrics = Except.ok (getPerformanceReport fw).performance) := by
  refine ⟨?_, fun fw td env => rfl, ?_⟩
  · intro t
    by_cases ht : t > 0
    · simp [throughputChecked, pyDiv, ht, ne_of_gt ht]
    · simp [throughputChecked, ht]
  · intro fw
    by_cases hc : fw.metrics.tasks_completed > 0
    · have hcz : ((fw.metrics.tasks_completed : Nat) : Rat) ≠ 0 :=
        Nat.cast_ne_zero.mpr (Nat.pos_iff_ne_zero.mp hc)
      by_cases ha : fw.metrics.total_runtime / (fw.metrics.tasks_completed : Rat) > 0
      · simp [perfChecked, pyDiv, hc, hcz, ha, ne_of_gt ha, getPerformanceReport,
          bind, Except.bind, Functor.map, Except.map, one_div, inv_div,
          pure, Except.pure]
      · simp [perfChecked, pyDiv, hc, hcz, ha, getPerformanceReport,
          bind, Except.bind, pure, Except.pure]
    · simp [perfChecked, pyDiv, hc, getPerformanceReport, bind, Except.bind,
        pure, Except.pure]

/-! ### Entry point behaviour -/

/-- C4 counterexample: running `main` does raise a name-resolution failure on
the undefined name `index`, but not on the final print statement: the
failure happens while the five sample tasks are being built (the list
comprehension of line 127 already references `index`), so the performance
report is never printed — contradicting the claim that all earlier steps
(batch processing, report printing) complete first. -/
theorem claim_C4_counterexample :
    (runMain []).2 = Except.error (PyError.nameError "index") ∧
    (runMain []).1 = [PrintEvent.initLine] ∧
    PrintEvent.reportLine ∉ (runMain []).1 := by
  refine ⟨rfl, rfl, ?_⟩
  have h : (runMain []).1 = [PrintEvent.initLine] := rfl
  rw [h]
  decide

/-- C4 (amended): running the entry point `main` as written raises a
name-resolution failure on the undefined name `index` while building the
five sample tasks (line 127), whatever the measured task durations would
have been; only initialization and its print complete first, and batch
processing, report printing and the final print are never reached. -/
theorem claim_C4_amended (envs : List ExecEnv) :
    runMain envs = ([PrintEvent.initLine], Except.error (PyError.nameError "index")) :=
  rfl

/-! ### Concurrency bound of the semaphore gate -/

theorem countP_set_incr {α : Type} (p : α → Bool) (l : List α) (i : Nat)
    (a b : α) (h : l.get? i = some a) (hpa : p a = false) (hpb : p b = true) :
    (l.set i b).countP p = l.countP p + 1 := by
  induction l generalizing i with
  | nil => simp at h
  | cons x xs ih =>
    cases i with
    | zero =>
      simp only [List.get?_cons_zero, Option.some.injEq] at h
      subst h
      simp [List.countP_cons, hpa, hpb]
    | succ j =>
      simp only [List.get?_cons_succ] at h
      simp only [List.set_cons_succ, List.countP_cons, ih j h]
      omega

theorem countP_set_decr {α : Type} (p : α → Bool) (l : List α) (i : Nat)
    (a b : α) (h : l.get? i = some a) (hpa : p a = true) (hpb : p b = false) :
    (l.set i b).countP p + 1 = l.countP p := by
  induction l generalizing i with
  | nil => simp at h
  | cons x xs ih =>
    cases i with
    | zero =>
      simp only [List.get?_cons_zero, Option.some.injEq] at h
      subst h
      simp [List.countP_cons, hpa, hpb]
    | succ j =>
      simp only [List.get?_cons_succ] at h
      simp only [List.set_cons_succ, List.countP_cons, ← ih j h]
      omega

theorem activeCount_set_active (ps : List TaskPhase) (i : Nat)
    (h : ps.get? i = some TaskPhase.waiting) :
    activeCount (ps.set i TaskPhase.active) = activeCount ps + 1 := by
  unfold activeCount
  exact countP_set_incr _ ps i _ _ h (by decide) (by decide)

theorem activeCount_set_done (ps : List TaskPhase) (i : Nat)
    (h : ps.get? i = some TaskPhase.active) :
    activeCount (ps.set i TaskPhase.done) + 1 = activeCount ps := by
  unfold activeCount
  exact countP_set_decr _ ps i _ _ h (by decide) (by decide)

theorem activeCount_replicate (k : Nat) :
    activeCount (List.replicate k TaskPhase.waiting) = 0 := by
  induction k with
  | zero => rfl
  | succ n ih => simp [List.replicate, activeCount, List.countP_cons]

/-- Invariant of the semaphore gate: the number of active coroutines plus
the semaphore counter is constant along every step. -/
theorem semStep_inv {n : Nat} {s s' : List TaskPhase × Nat}
    (hstep : SemStep s s') (hinv : activeCount s.1 + s.2 = n) :
    activeCount s'.1 + s'.2 = n := by
  cases hstep with
  | acquire ps c i h =>
    have ha := activeCount_set_active ps i h
    simp only at hinv ⊢
    omega
  | release ps c i h =>
    have ha := activeCount_set_done ps i h
    simp only at hinv ⊢
    omega

theorem semReachable_inv (workers numTasks : Nat) (s : List TaskPhase × Nat)
    (hr : SemReachable workers numTasks s) :
    activeCount s.1 + s.2 = workers := by
  induction hr with
  | refl => simp [activeCount_replicate]
  | tail _ hstep ih => exact semStep_inv hstep ih

/-- C5: in every state of the gated batch reachable during
`run_batch_processing`, for any batch size and any worker limit ≥ 1, at most
`max_workers` task executions are simultaneously active (past the semaphore
acquire of line 88 and not yet released). -/
theorem claim_C5_concurrency_bound (fw : Framework) (numTasks : Nat)
    (s : List TaskPhase × Nat) (hw : 1 ≤ fw.config.max_workers)
    (hr : SemReachable fw.config.max_workers numTasks s) :
    activeCount s.1 ≤ fw.config.max_workers := by
  have h := semReachable_inv fw.config.max_workers numTasks s hr
  omega

/-- C5 witness: with the default limit of 4 and a batch of two coroutines,
the state after one acquire step is reachable and within the bound. -/
theorem claim_C5_concurrency_bound_witness :
    1 ≤ (mkFramework none).config.max_workers ∧
    activeCount [TaskPhase.active, TaskPhase.waiting]
      ≤ (mkFramework none).config.max_workers := by
  have hstep : SemStep (List.replicate 2 TaskPhase.waiting, 4)
      ([TaskPhase.active, TaskPhase.waiting], 3) :=
    SemStep.acquire (List.replicate 2 TaskPhase.waiting) 3 0 rfl
  have hr : SemReachable (mkFramework none).config.max_workers 2
      ([TaskPhase.active, TaskPhase.waiting], 3) :=
    Relation.ReflTransGen.tail Relation.ReflTransGen.refl hstep
  exact ⟨by decide,
    claim_C5_concurrency_bound (mkFramework none) 2
      ([TaskPhase.active, TaskPhase.waiting], 3) (by decide) hr⟩

/-! ### Frame properties: config, success_rate, is_running -/

theorem exec_config (fw : Framework) (td : List (String × String)) (env : ExecEnv) :
    (executeResearchTask fw td env).2.config = fw.config := rfl

theorem runBatch_config (tasks : List (List (String × String))) :
    ∀ (envs : List ExecEnv) (fw : Framework),
      (runBatchProcessing fw tasks envs).2.config = fw.config := by
  induction tasks with
  | nil => intro envs fw; rfl
  | cons t ts ih =>
    intro envs fw
    simp only [runBatchProcessing]
    rw [ih]
    rfl

theorem runBatch_success_rate (tasks : List (List (String × String))) :
    ∀ (envs : List ExecEnv) (fw : Framework),
      (runBatchProcessing fw tasks envs).2.metrics.success_rate
        = fw.metrics.success_rate := by
  induction tasks with
  | nil => intro envs fw; rfl
  | cons t ts ih =>
    intro envs fw
    simp only [runBatchProcessing]
    rw [ih]
    rfl

theorem runBatch_is_running (tasks : List (List (String × String))) :
    ∀ (envs : List ExecEnv) (fw : Framework),
      (runBatchProcessing fw tasks envs).2.is_running = fw.is_running := by
  induction tasks with
  | nil => intro envs fw; rfl
  | cons t ts ih =>
    intro envs fw
    simp only [runBatchProcessing]
    rw [ih]
    rfl

theorem exec_is_running_frame (fw : Framework) (td : List (String × String))
    (env : ExecEnv) (b : Bool) :
    executeResearchTask { fw with is_running := b } td env
      = ((executeResearchTask fw td env).1,
         { (executeResearchTask fw td env).2 with is_running := b }) := rfl

theorem runBatch_is_running_frame (tasks : List (List (String × String))) :
    ∀ (envs : List ExecEnv) (fw : Framework) (b : Bool),
      runBatchProcessing { fw with is_running := b } tasks envs
        = ((runBatchProcessing fw tasks envs).1,
           { (runBatchProcessing fw tasks envs).2 with is_running := b }) := by
  induction tasks with
  | nil => intro envs fw b; rfl
  | cons t ts ih =>
    intro envs fw b
    simp only [runBatchProcessing, exec_is_running_frame]
    rw [ih]

theorem applyOp_success_rate (fw : Framework) (op : Op) :
    (applyOp fw op).metrics.success_rate = fw.metrics.success_rate := by
  cases op with
  | initializeResearchOp => rfl
  | executeResearchTaskOp td env => rfl
  | runBatchProcessingOp tds envs => exact runBatch_success_rate tds envs fw
  | getPerformanceReportOp => rfl

theorem applyOp_config (fw : Framework) (op : Op) :
    (applyOp fw op).config = fw.config := by
  cases op with
  | initializeResearchOp => rfl
  | executeResearchTaskOp td env => rfl
  | runBatchProcessingOp tds envs => exact runBatch_config tds envs fw
  | getPerformanceReportOp => rfl

theorem applyOp_is_running (fw : Framework) (op : Op) :
    (applyOp fw op).is_running = fw.is_running := by
  cases op with
  | initializeResearchOp => rfl
  | executeResearchTaskOp td env => rfl
  | runBatchProcessingOp tds envs => exact runBatch_is_running tds envs fw
  | getPerformanceReportOp => rfl

theorem applyOps_success_rate (ops : List Op) :
    ∀ fw : Framework,
      (applyOps fw ops).metrics.success_rate = fw.metrics.success_rate := by
  induction ops with
  | nil => intro fw; rfl
  | cons op rest ih =>
    intro fw
    show (applyOps (applyOp fw op) rest).metrics.success_rate = _
    rw [ih, applyOp_success_rate]

theorem applyOps_config (ops : List Op) :
    ∀ fw : Framework, (applyOps fw ops).config = fw.config := by
  induction ops with
  | nil => intro fw; rfl
  | cons op rest ih =>
    intro fw
    show (applyOps (applyOp fw op) rest).config = _
    rw [ih, applyOp_config]

theorem applyOps_is_running (ops : List Op) :
    ∀ fw : Framework, (applyOps fw ops).is_running = fw.is_running := by
  induction ops with
  | nil => intro fw; rfl
  | cons op rest ih =>
    intro fw
    show (applyOps (applyOp fw op) rest).is_running = _
    rw [ih, applyOp_is_running]

/-- C6: the metrics field `success_rate` is 0.0 after construction and stays
0.0 after any sequence of calls to `initialize_research`,
`execute_research_task`, `run_batch_processing` and
`get_performance_report`: no operation ever updates it. -/
theorem claim_C6_success_rate_constant :
    (∀ cfg : Option ResearchConfig, (mkFramework cfg).metrics.success_rate = 0) ∧
    (∀ (cfg : Option ResearchConfig) (ops : List Op),
      (applyOps (mkFramework cfg) ops).metrics.success_rate = 0) :=
  ⟨fun _ => rfl, fun cfg ops => by
    rw [applyOps_success_rate ops (mkFramework cfg)]
    rfl⟩

/-- C8: the configuration record is immutable once constructed: every single
operation and every sequence of operations of the framework leaves
`config` (hence all of `framework_id`, `category`, `version`, `max_workers`,
`timeout`) unchanged. -/
theorem claim_C8_config_immutable :
    (∀ (fw : Framework) (op : Op), (applyOp fw op).config = fw.config) ∧
    (∀ (fw : Framework) (ops : List Op), (applyOps fw ops).config = fw.config) :=
  ⟨applyOp_config, fun fw ops => applyOps_config ops fw⟩

/-- C9: `initialize_research` always returns the static descriptor built
from the configured category, version and identifier, with status
"initialized" and a fixed list of exactly four capability labels, and it
mutates no framework state. -/
theorem claim_C9_initial_descriptor (fw : Framework) :
    initializeResearch fw =
      { framework := fw.config.category
        version := fw.config.version
        research_id := fw.config.framework_id
        status := "initialized"
        capabilities := [
          "distributed_processing",
          "real_time_analysis",
          "performance_optimization",
          "scalable_architecture"] } ∧
    (initializeResearch fw).capabilities.length = 4 ∧
    applyOp fw Op.initializeResearchOp = fw :=
  ⟨rfl, rfl, rfl⟩

/-- C10: `is_running` is set to `false` at construction; no operation reads
it (all operation results and all state transitions are unchanged when the
flag is flipped) or modifies it (every operation sequence preserves it), so
it is `false` in every reachable state. -/
theorem claim_C10_is_running_unused :
    (∀ cfg : Option ResearchConfig, (mkFramework cfg).is_running = false) ∧
    (∀ (fw : Framework) (b : Bool) (op : Op),
      opResult { fw with is_running := b } op = opResult fw op ∧
      applyOp { fw with is_running := b } op
        = { applyOp fw op with is_running := b }) ∧
    (∀ (fw : Framework) (ops : List Op),
      (applyOps fw ops).is_running = fw.is_running) ∧
    (∀ (cfg : Option ResearchConfig) (ops : List Op),
      (applyOps (mkFramework cfg) ops).is_running = false) := by
  refine ⟨fun _ => rfl, ?_, fun fw ops => applyOps_is_running ops fw, ?_⟩
  · intro fw b op
    cases op with
    | initializeResearchOp => exact ⟨rfl, rfl⟩
    | executeResearchTaskOp td env => exact ⟨rfl, rfl⟩
    | runBatchProcessingOp tds envs =>
      constructor
      · show OpOutput.batchOut (runBatchProcessing { fw with is_running := b } tds envs).1 = _
        rw [runBatch_is_running_frame]
        rfl
      · show (runBatchProcessing { fw with is_running := b } tds envs).2 = _
        rw [runBatch_is_running_frame]
        rfl
    | getPerformanceReportOp => exact ⟨rfl, rfl⟩
  · intro cfg ops
    rw [applyOps_is_running ops (mkFramework cfg)]
    rfl

end DistComp
